import Mathlib

/-!
A shallow embedding of the ad-generator frontend's workflow core:
the transport helpers of `src/frontend/src/config/api.js` and the
workflow state machine of
`src/frontend/src/components/VideoGenerator.jsx`.

Asynchronous handlers are split at their `await` points: each
synchronous block becomes one function from the workflow state current
when the block runs to the updated state, and the backend's answer to an
`await` is passed in explicitly as an `Except` value (`Except.error` for
a thrown/rejected call, `Except.ok` for a resolved one). React's
`setX(prev => ...)` functional updates read the state at application
time, which this state-passing style reproduces.
-/

/-- JavaScript truthiness of an optional string field: truthy exactly when
the field is present and non-empty. -/
def truthyOptStr (o : Option String) : Bool :=
  match o with
  | none => false
  | some v => !v.isEmpty

/-- JavaScript `v || d` on an optional string field: the default replaces a
missing (`undefined`) or empty (falsy) value. -/
def strOr (o : Option String) (d : String) : String :=
  match o with
  | none => d
  | some v => if v.isEmpty then d else v

/-- The settings value object of the settings form (`VideoGenerator.jsx`
lines 15-23, options enumerated in `VideoSettings.jsx`). Non-boolean fields
are optional strings so a missing field of a plain JS object is
representable. -/
structure VideoSettingsT where
  aspectRatio : Option String
  template : Option String
  voiceTone : Option String
  enableKaraoke : Bool
  includeVoiceover : Bool
  includeMusic : Bool
  backgroundMusic : Option String
  deriving DecidableEq, Repr

/-- The initial settings object (`VideoGenerator.jsx` lines 15-23). -/
def initialSettings : VideoSettingsT :=
  { aspectRatio := some "16:9", template := some "modern",
    voiceTone := some "professional", enableKaraoke := true,
    includeVoiceover := true, includeMusic := true,
    backgroundMusic := some "corporate" }

/-- The `generationData` state object (`VideoGenerator.jsx` lines 24-33).
Backend payloads (`productData`, `adScript`, `videoPath`) are opaque to the
component and embedded as optional strings. -/
structure GenerationData where
  sessionId : Option String
  productData : Option String
  adScript : Option String
  videoPath : Option String
  progress : Nat
  status : String
  error : Option String
  currentOperation : String
  deriving DecidableEq, Repr

/-- The initial `generationData` value (`VideoGenerator.jsx` lines 24-33). -/
def initialGenerationData : GenerationData :=
  { sessionId := none, productData := none, adScript := none,
    videoPath := none, progress := 0, status := "idle", error := none,
    currentOperation := "" }

/-- The whole component state: wizard step, submitted URL, settings and
generation data (`VideoGenerator.jsx` lines 13-33). -/
structure WorkflowState where
  currentStep : String
  url : String
  settings : VideoSettingsT
  generationData : GenerationData
  deriving DecidableEq, Repr

/-- The component's initial state. -/
def initialWorkflowState : WorkflowState :=
  { currentStep := "input", url := "", settings := initialSettings,
    generationData := initialGenerationData }

/-- The JSON body of a scrape response (`api.js` `scrapeProduct`,
`VideoGenerator.jsx` `handleUrlSubmit`). `session_id` is the snake_case
field sent by the backend, `sessionId` the camelCase alias the API layer
normalizes into. -/
structure ScrapeResult where
  success : Bool
  session_id : Option String
  sessionId : Option String
  product_data : Option String
  error : Option String
  deriving DecidableEq, Repr

/-- The JSON body of a generate-script response. -/
structure ScriptResult where
  success : Bool
  ad_script : Option String
  error : Option String
  deriving DecidableEq, Repr

/-- The JSON body of a create-video response. -/
structure VideoResult where
  success : Bool
  video_path : Option String
  error : Option String
  deriving DecidableEq, Repr

/-- A JavaScript error value as seen by `apiRequest`'s catch block: its
`name` and `message`. -/
structure JsError where
  name : String
  message : String
  deriving DecidableEq, Repr

/-- Whether `t` occurs as a contiguous run inside `l`. -/
def containsSub (t : List Char) : List Char → Bool
  | [] => t.isEmpty
  | c :: cs => t.isPrefixOf (c :: cs) || containsSub t cs

/-- Embedding of JavaScript `s.includes(t)`: `t` occurs as a substring
of `s`. -/
def strIncludes (s t : String) : Bool :=
  containsSub t.toList s.toList

/-- The fixed hint thrown by `apiRequest` when the backend is unreachable
(`api.js` line 78). -/
def backendHint : String :=
  "Unable to connect to the backend. Please make sure the server is running on port 8000."

/-- The network-failure test of `apiRequest`'s catch block (`api.js`
line 77): a `TypeError` whose message mentions `fetch`. -/
def isNetworkError (e : JsError) : Bool :=
  e.name == "TypeError" && strIncludes e.message "fetch"

/-- `apiRequest`'s catch block (`api.js` lines 68-82): a fetch network
failure is replaced by a fresh error carrying the fixed backend hint; every
other error is rethrown unchanged. -/
def apiRequestCatch (e : JsError) : JsError :=
  if isNetworkError e then { name := "Error", message := backendHint } else e

/-- `videoAPI.scrapeProduct`'s response validation (`api.js` lines
104-119): an empty response is rejected, a response with neither
`session_id` nor `sessionId` truthy is rejected with a fixed message, and
otherwise `sessionId` is normalized from `session_id`. -/
def scrapeProduct (resp : Option ScrapeResult) : Except String ScrapeResult :=
  match resp with
  | none => Except.error "Empty response from scrape endpoint"
  | some r =>
    if !truthyOptStr r.session_id && !truthyOptStr r.sessionId then
      Except.error "Backend did not return a session ID"
    else if truthyOptStr r.session_id && !truthyOptStr r.sessionId then
      Except.ok { r with sessionId := r.session_id }
    else
      Except.ok r

/-- The form payload built by `videoAPI.createVideo` (`api.js` lines
160-168), as the ordered association list of appended fields. -/
def createVideoPayload (sessionId : String) (s : VideoSettingsT) :
    List (String × String) :=
  [("session_id", sessionId),
   ("aspect_ratio", strOr s.aspectRatio "16:9"),
   ("template", strOr s.template "modern"),
   ("voice_tone", strOr s.voiceTone "professional"),
   ("enable_karaoke", if s.enableKaraoke then "true" else "false"),
   ("include_voiceover", if s.includeVoiceover then "true" else "false"),
   ("background_music", strOr s.backgroundMusic "corporate"),
   ("include_music", if s.includeMusic then "true" else "false")]

/-- `videoAPI.createVideo` up to the network call (`api.js` lines 153-168):
the missing-session guard (a falsy session id throws before any payload is
built), then the form payload. -/
def createVideoForm (sessionId : Option String) (s : VideoSettingsT) :
    Except String (List (String × String)) :=
  match sessionId with
  | none => Except.error "Session ID is required for video creation"
  | some v =>
    if v.isEmpty then Except.error "Session ID is required for video creation"
    else Except.ok (createVideoPayload v s)

/-- A network request issued by one of the workflow's phases. -/
inductive NetworkRequest where
  | scrape (url : String)
  | generateScript (sessionId : String) (tone : String)
  | createVideo (payload : List (String × String))
  deriving Repr

/-- `handleUrlSubmit` up to its `await` (`VideoGenerator.jsx` lines
35-54): store the URL, replace `generationData` wholesale with the
scraping-in-progress record, move the wizard to the generating step, and
issue the scrape request. -/
def urlSubmitStart (u : String) (s : WorkflowState) :
    WorkflowState × NetworkRequest :=
  ({ s with
      url := u
      currentStep := "generating"
      generationData :=
        { sessionId := none, productData := none, adScript := none,
          videoPath := none, progress := 10, status := "scraping",
          error := none,
          currentOperation := "Scraping product data..." } },
   NetworkRequest.scrape u)

/-- The catch block of `handleUrlSubmit` (`VideoGenerator.jsx` lines
79-88). -/
def scrapeCatch (msg : String) (s : WorkflowState) : WorkflowState :=
  { s with
      generationData :=
        { s.generationData with
            status := "error"
            error := some msg
            currentOperation := "Scraping failed" } }

/-- The continuation of `handleUrlSubmit` after the scrape `await`
(`VideoGenerator.jsx` lines 55-88). A response with `success` truthy and a
truthy `session_id` stores the session and product data at 25% progress;
anything else throws into the catch block with the body's `error` or a
fixed fallback message. -/
def urlSubmitResume (r : Except String ScrapeResult) (s : WorkflowState) :
    WorkflowState :=
  match r with
  | Except.error msg => scrapeCatch msg s
  | Except.ok result =>
    if result.success && truthyOptStr result.session_id then
      { s with
          generationData :=
            { s.generationData with
                sessionId := result.session_id
                productData := result.product_data
                status := "scraped"
                progress := 25
                currentOperation := "Product data scraped successfully!" } }
    else
      scrapeCatch
        (strOr result.error
          "Failed to scrape product data - no session ID returned") s

/-- The deferred step advance scheduled on scrape success
(`VideoGenerator.jsx` lines 70-72). -/
def advanceToSettings (s : WorkflowState) : WorkflowState :=
  { s with currentStep := "settings" }

/-- `handleSettingsConfirm` up to the generate-script `await`
(`VideoGenerator.jsx` lines 91-125): with no truthy session id it writes
the local missing-session error and returns with no request; otherwise it
stores the settings, moves to the generating step at 35% and issues the
script request (the API applies the `exciting` default only to a missing
tone, `api.js` line 127). -/
def settingsConfirmStart (c : VideoSettingsT) (s : WorkflowState) :
    WorkflowState × Option NetworkRequest :=
  if !truthyOptStr s.generationData.sessionId then
    ({ s with
        generationData :=
          { s.generationData with
              status := "error"
              error := some "No session ID available. Please try again."
              currentOperation := "Session error" } },
     none)
  else
    ({ s with
        settings := c
        currentStep := "generating"
        generationData :=
          { s.generationData with
              status := "generating_script"
              progress := 35
              currentOperation := "Generating AI script..."
              error := none } },
     some (NetworkRequest.generateScript (s.generationData.sessionId.getD "")
       (c.voiceTone.getD "exciting")))

/-- The script-failure catch block (`VideoGenerator.jsx` lines 181-190). -/
def scriptCatch (msg : String) (s : WorkflowState) : WorkflowState :=
  { s with
      generationData :=
        { s.generationData with
            status := "error"
            error := some msg
            currentOperation := "Script generation failed" } }

/-- The continuation of `handleSettingsConfirm` after the generate-script
`await` (`VideoGenerator.jsx` lines 127-140). -/
def settingsConfirmResume (r : Except String ScriptResult)
    (s : WorkflowState) : WorkflowState :=
  match r with
  | Except.error msg => scriptCatch msg s
  | Except.ok result =>
    if result.success then
      { s with
          generationData :=
            { s.generationData with
                adScript := result.ad_script
                status := "script_generated"
                progress := 50
                currentOperation := "AI script generated successfully!" } }
    else
      scriptCatch (strOr result.error "Failed to generate script") s

/-- The deferred video phase up to the create-video `await`
(`VideoGenerator.jsx` lines 142-152): the 60% update, then
`videoAPI.createVideo`, whose own session guard may throw before any
network traffic. -/
def createVideoStart (c : VideoSettingsT) (s : WorkflowState) :
    WorkflowState × Except String NetworkRequest :=
  ({ s with
      generationData :=
        { s.generationData with
            status := "creating_video"
            progress := 60
            currentOperation := "Creating video with AI..." } },
   (createVideoForm s.generationData.sessionId c).map NetworkRequest.createVideo)

/-- The video-failure catch block (`VideoGenerator.jsx` lines 169-178). -/
def videoCatch (msg : String) (s : WorkflowState) : WorkflowState :=
  { s with
      generationData :=
        { s.generationData with
            status := "error"
            error := some msg
            currentOperation := "Video creation failed" } }

/-- The continuation after the create-video `await` (`VideoGenerator.jsx`
lines 153-168): success stores the video path at 100% and advances the
wizard to results; failure throws into the catch block. -/
def createVideoResume (r : Except String VideoResult) (s : WorkflowState) :
    WorkflowState :=
  match r with
  | Except.error msg => videoCatch msg s
  | Except.ok result =>
    if result.success then
      { s with
          currentStep := "results"
          generationData :=
            { s.generationData with
                videoPath := result.video_path
                status := "completed"
                progress := 100
                currentOperation := "Video created successfully!" } }
    else
      videoCatch (strOr result.error "Failed to create video") s

/-- `handleReset` (`VideoGenerator.jsx` lines 193-207): back to the input
step with the URL and all generation data cleared. The settings object is
not touched. -/
def handleReset (s : WorkflowState) : WorkflowState :=
  { s with
      currentStep := "input"
      url := ""
      generationData := initialGenerationData }

/-- The user-visible effect of the download handler. -/
inductive DownloadEffect where
  | toastOnly (msg : String)
  | navigate (url : String)
  deriving DecidableEq, Repr

/-- `handleDownload` (`VideoGenerator.jsx` lines 209-235): with no truthy
session id it shows a failure toast and returns; otherwise it navigates a
temporary link to the download URL. In neither case does it write the
workflow state. -/
def handleDownload (s : WorkflowState) : WorkflowState × DownloadEffect :=
  if !truthyOptStr s.generationData.sessionId then
    (s, DownloadEffect.toastOnly "Download failed: No session ID available")
  else
    (s, DownloadEffect.navigate
      ("/api/download/" ++ s.generationData.sessionId.getD ""))

/-- The events driving the workflow state machine: each is one synchronous
block of the component's handlers, applied to the state current when the
block runs. -/
inductive Event where
  | urlSubmit (u : String)
  | scrapeResponse (r : Except String ScrapeResult)
  | settingsAdvance
  | settingsConfirm (c : VideoSettingsT)
  | scriptResponse (r : Except String ScriptResult)
  | videoPhaseStart (c : VideoSettingsT)
  | videoResponse (r : Except String VideoResult)
  | reset
  | download

/-- The workflow state machine: the state effect of each event. -/
def step (e : Event) (s : WorkflowState) : WorkflowState :=
  match e with
  | Event.urlSubmit u => (urlSubmitStart u s).fst
  | Event.scrapeResponse r => urlSubmitResume r s
  | Event.settingsAdvance => advanceToSettings s
  | Event.settingsConfirm c => (settingsConfirmStart c s).fst
  | Event.scriptResponse r => settingsConfirmResume r s
  | Event.videoPhaseStart c => (createVideoStart c s).fst
  | Event.videoResponse r => createVideoResume r s
  | Event.reset => handleReset s
  | Event.download => (handleDownload s).fst

/-- The progress value after each event of a run. -/
def progressTrace (s : WorkflowState) : List Event → List Nat
  | [] => []
  | e :: es => (step e s).generationData.progress :: progressTrace (step e s) es

/-- The subsequence of a trace at which the value changes, starting from
the given previous value: the values actually assigned along the run. -/
def changesOnly (prev : Nat) : List Nat → List Nat
  | [] => []
  | x :: xs => if x = prev then changesOnly prev xs else x :: changesOnly x xs

/-- The event sequence of a full run in which every backend call resolves:
submit, scrape response, deferred advance to settings, confirm, script
response, deferred video phase, video response. -/
def successfulRunEvents (u : String) (r1 : ScrapeResult) (c : VideoSettingsT)
    (r2 : ScriptResult) (r3 : VideoResult) : List Event :=
  [Event.urlSubmit u, Event.scrapeResponse (Except.ok r1),
   Event.settingsAdvance, Event.settingsConfirm c,
   Event.scriptResponse (Except.ok r2), Event.videoPhaseStart c,
   Event.videoResponse (Except.ok r3)]

/-! ### Helper lemmas -/

/-- A JS `||` default with a non-empty default never yields the empty
string. -/
theorem strOr_ne_empty (o : Option String) (d : String) (hd : d ≠ "") :
    strOr o d ≠ "" := by
  cases o with
  | none => simpa [strOr]
  | some v =>
    by_cases hv : v.isEmpty
    · simpa [strOr, hv]
    · simp only [strOr, hv, Bool.false_eq_true, if_false]
      intro h
      subst h
      exact hv rfl

/-- A falsy optional string is replaced by the default. -/
theorem strOr_of_falsy (o : Option String) (d : String)
    (h : truthyOptStr o = false) : strOr o d = d := by
  cases o with
  | none => rfl
  | some v =>
    simp only [truthyOptStr, Bool.not_eq_false'] at h
    simp [strOr, h]

/-! ### C7: reset clears everything -/

/-- C7: from any workflow state, reset unconditionally clears `sessionId`,
`productData`, `adScript`, `videoPath` and `error`, sets progress 0, status
idle, wizard step input, and empties the current operation. -/
theorem reset_clears_state (s : WorkflowState) :
    (handleReset s).generationData.sessionId = none ∧
    (handleReset s).generationData.productData = none ∧
    (handleReset s).generationData.adScript = none ∧
    (handleReset s).generationData.videoPath = none ∧
    (handleReset s).generationData.error = none ∧
    (handleReset s).generationData.progress = 0 ∧
    (handleReset s).generationData.status = "idle" ∧
    (handleReset s).currentStep = "input" ∧
    (handleReset s).generationData.currentOperation = "" := by
  refine ⟨rfl, rfl, rfl, rfl, rfl, rfl, rfl, rfl, rfl⟩

/-! ### C3: settings confirm without a session id -/

/-- C3: confirming settings while the session id is unset writes the local
missing-session error (status error, fixed message) and issues no network
request, so no script-generation call is attempted. -/
theorem settingsConfirm_noSession_localError (c : VideoSettingsT)
    (s : WorkflowState) (h : truthyOptStr s.generationData.sessionId = false) :
    (settingsConfirmStart c s).fst.generationData.status = "error" ∧
    (settingsConfirmStart c s).fst.generationData.error =
      some "No session ID available. Please try again." ∧
    (settingsConfirmStart c s).snd = none := by
  simp [settingsConfirmStart, h]

/-- Witness for C3 at the initial state, whose session id is unset. -/
theorem settingsConfirm_noSession_localError_witness :
    truthyOptStr initialWorkflowState.generationData.sessionId = false ∧
    ((settingsConfirmStart initialSettings initialWorkflowState).fst.generationData.status = "error" ∧
     (settingsConfirmStart initialSettings initialWorkflowState).fst.generationData.error =
       some "No session ID available. Please try again." ∧
     (settingsConfirmStart initialSettings initialWorkflowState).snd = none) :=
  ⟨by decide,
   settingsConfirm_noSession_localError initialSettings initialWorkflowState (by decide)⟩

/-! ### C1: download without a session id -/

/-- A results-step state whose video completed but whose session id was
never set: the concrete input on which the download precondition fires. -/
def downloadCounterState : WorkflowState :=
  { currentStep := "results", url := "https://example.com/item/123",
    settings := initialSettings,
    generationData :=
      { initialGenerationData with
          status := "completed"
          videoPath := some "out.mp4"
          progress := 100 } }

/-- C1 counterexample: triggering download with the session id unset only
fires a toast; the workflow state's status does not become error and its
error field stays empty, so the download precondition does not populate the
Error fields that the settings-confirm precondition failure populates. -/
theorem download_noSession_does_not_set_error_fields :
    (handleDownload downloadCounterState).fst.generationData.status ≠ "error" ∧
    (handleDownload downloadCounterState).fst.generationData.status = "completed" ∧
    (handleDownload downloadCounterState).fst.generationData.error = none ∧
    (handleDownload downloadCounterState).snd =
      DownloadEffect.toastOnly "Download failed: No session ID available" := by
  decide

/-- C1 amended: with the session id unset, download fails fast locally —
it returns with only a failure toast, performs no navigation or network
call, and leaves the whole workflow state unchanged (its status and error
fields included). -/
theorem download_noSession_failsFast (s : WorkflowState)
    (h : truthyOptStr s.generationData.sessionId = false) :
    handleDownload s =
      (s, DownloadEffect.toastOnly "Download failed: No session ID available") := by
  simp [handleDownload, h]

/-- Witness for the amended C1 at the concrete no-session results state. -/
theorem download_noSession_failsFast_witness :
    truthyOptStr downloadCounterState.generationData.sessionId = false ∧
    handleDownload downloadCounterState =
      (downloadCounterState,
       DownloadEffect.toastOnly "Download failed: No session ID available") :=
  ⟨by decide, download_noSession_failsFast downloadCounterState (by decide)⟩

/-! ### C2: a late response after reset is applied, not ignored -/

/-- A successful scrape response arriving after the user already reset. -/
def staleScrape : ScrapeResult :=
  { success := true, session_id := some "abc", sessionId := none,
    product_data := some "Widget", error := none }

/-- The state after submitting a URL and resetting while the scrape call is
still in flight. -/
def postResetState : WorkflowState :=
  step Event.reset
    (step (Event.urlSubmit "https://example.com/item/123") initialWorkflowState)

/-- C2: the code has no stale-response guard. A scrape response that
arrives after a reset is applied to the post-reset state: status moves from
idle to scraped, progress from 0 to 25 and the stale session id is stored,
instead of the response being ignored. -/
theorem stale_response_after_reset_applies :
    postResetState.generationData.status = "idle" ∧
    postResetState.generationData.progress = 0 ∧
    postResetState.generationData.sessionId = none ∧
    (step (Event.scrapeResponse (Except.ok staleScrape)) postResetState).generationData.status = "scraped" ∧
    (step (Event.scrapeResponse (Except.ok staleScrape)) postResetState).generationData.sessionId = some "abc" ∧
    (step (Event.scrapeResponse (Except.ok staleScrape)) postResetState).generationData.progress = 25 := by
  decide
/-! ### C5: scrape success without a session id -/

/-- C5: a scrape response that reports success but carries no truthy
`session_id` ends the workflow in status error with a non-empty message —
never in the scraped status — whether the API layer rejects it (no
camelCase alias either) or the component's own check does. -/
theorem scrape_success_without_sessionId_fails (s : WorkflowState)
    (r : ScrapeResult) (hs : r.success = true)
    (hid : truthyOptStr r.session_id = false) :
    (urlSubmitResume (scrapeProduct (some r)) s).generationData.status = "error" ∧
    (urlSubmitResume (scrapeProduct (some r)) s).generationData.status ≠ "scraped" ∧
    (urlSubmitResume (scrapeProduct (some r)) s).generationData.error.getD "" ≠ "" := by
  by_cases hc : truthyOptStr r.sessionId = true
  · have hsp : scrapeProduct (some r) = Except.ok r := by
      simp [scrapeProduct, hid, hc]
    have hres : urlSubmitResume (Except.ok r) s =
        scrapeCatch
          (strOr r.error "Failed to scrape product data - no session ID returned") s := by
      simp [urlSubmitResume, hs, hid]
    rw [hsp, hres]
    refine ⟨rfl, by simp [scrapeCatch], ?_⟩
    simpa [scrapeCatch] using strOr_ne_empty r.error
      "Failed to scrape product data - no session ID returned" (by decide)
  · have hc' : truthyOptStr r.sessionId = false := by
      simpa using hc
    have hsp : scrapeProduct (some r) =
        Except.error "Backend did not return a session ID" := by
      simp [scrapeProduct, hid, hc']
    rw [hsp]
    exact ⟨rfl, by simp [urlSubmitResume, scrapeCatch],
      by simp [urlSubmitResume, scrapeCatch]⟩

/-- A scrape body reporting success with no session identifier at all. -/
def noIdScrape : ScrapeResult :=
  { success := true, session_id := none, sessionId := none,
    product_data := some "Widget", error := none }

/-- Witness for C5 at the concrete no-id successful scrape body. -/
theorem scrape_success_without_sessionId_fails_witness :
    noIdScrape.success = true ∧
    truthyOptStr noIdScrape.session_id = false ∧
    ((urlSubmitResume (scrapeProduct (some noIdScrape))
        initialWorkflowState).generationData.status = "error" ∧
     (urlSubmitResume (scrapeProduct (some noIdScrape))
        initialWorkflowState).generationData.status ≠ "scraped" ∧
     (urlSubmitResume (scrapeProduct (some noIdScrape))
        initialWorkflowState).generationData.error.getD "" ≠ "") :=
  ⟨rfl, rfl,
   scrape_success_without_sessionId_fails initialWorkflowState noIdScrape rfl rfl⟩

/-! ### C6: stage failures keep the wizard step -/

/-- A workflow state showing a stage failure surfaced while generating:
the wizard step is still generating, the status is error, and the error
message is non-empty. -/
def failedAtGenerating (t : WorkflowState) : Prop :=
  t.currentStep = "generating" ∧ t.generationData.status = "error" ∧
    t.generationData.error.getD "" ≠ ""

/-- The create-video body of the spec's render-failure scenario. -/
def renderFailed : VideoResult :=
  { success := false, video_path := none, error := some "render failed" }

/-- C6: from any state at the generating step, every failure of the three
pipeline stages — a thrown transport error with a non-empty message or a
body with `success` false — leaves the wizard step at generating while the
status becomes error with a non-empty message; the render-failure scenario
yields exactly the message "render failed". -/
theorem stage_failure_keeps_step (s : WorkflowState)
    (hstep : s.currentStep = "generating") :
    (∀ msg, msg ≠ "" → failedAtGenerating (urlSubmitResume (Except.error msg) s)) ∧
    (∀ r : ScrapeResult, r.success = false →
      failedAtGenerating (urlSubmitResume (Except.ok r) s)) ∧
    (∀ msg, msg ≠ "" → failedAtGenerating (settingsConfirmResume (Except.error msg) s)) ∧
    (∀ r : ScriptResult, r.success = false →
      failedAtGenerating (settingsConfirmResume (Except.ok r) s)) ∧
    (∀ msg, msg ≠ "" → failedAtGenerating (createVideoResume (Except.error msg) s)) ∧
    (∀ r : VideoResult, r.success = false →
      failedAtGenerating (createVideoResume (Except.ok r) s)) ∧
    ((createVideoResume (Except.ok renderFailed) s).generationData.status = "error" ∧
     (createVideoResume (Except.ok renderFailed) s).generationData.error = some "render failed" ∧
     (createVideoResume (Except.ok renderFailed) s).currentStep = "generating") := by
  refine ⟨?_, ?_, ?_, ?_, ?_, ?_, ?_, ?_, ?_⟩
  · intro msg hm
    exact ⟨hstep, rfl, hm⟩
  · intro r hr
    have : urlSubmitResume (Except.ok r) s =
        scrapeCatch
          (strOr r.error "Failed to scrape product data - no session ID returned") s := by
      simp [urlSubmitResume, hr]
    rw [this]
    exact ⟨hstep, rfl,
      strOr_ne_empty r.error
        "Failed to scrape product data - no session ID returned" (by decide)⟩
  · intro msg hm
    exact ⟨hstep, rfl, hm⟩
  · intro r hr
    have : settingsConfirmResume (Except.ok r) s =
        scriptCatch (strOr r.error "Failed to generate script") s := by
      simp [settingsConfirmResume, hr]
    rw [this]
    exact ⟨hstep, rfl,
      strOr_ne_empty r.error "Failed to generate script" (by decide)⟩
  · intro msg hm
    exact ⟨hstep, rfl, hm⟩
  · intro r hr
    have : createVideoResume (Except.ok r) s =
        videoCatch (strOr r.error "Failed to create video") s := by
      simp [createVideoResume, hr]
    rw [this]
    exact ⟨hstep, rfl,
      strOr_ne_empty r.error "Failed to create video" (by decide)⟩
  · rfl
  · rfl
  · exact hstep

/-- The state right after a URL submission: the wizard sits at the
generating step. -/
def generatingState : WorkflowState :=
  (urlSubmitStart "https://example.com/item/123" initialWorkflowState).fst

/-- Witness for C6 at the concrete generating-step state. -/
theorem stage_failure_keeps_step_witness :
    generatingState.currentStep = "generating" ∧
    ((∀ msg, msg ≠ "" →
       failedAtGenerating (urlSubmitResume (Except.error msg) generatingState)) ∧
     (∀ r : ScrapeResult, r.success = false →
       failedAtGenerating (urlSubmitResume (Except.ok r) generatingState)) ∧
     (∀ msg, msg ≠ "" →
       failedAtGenerating (settingsConfirmResume (Except.error msg) generatingState)) ∧
     (∀ r : ScriptResult, r.success = false →
       failedAtGenerating (settingsConfirmResume (Except.ok r) generatingState)) ∧
     (∀ msg, msg ≠ "" →
       failedAtGenerating (createVideoResume (Except.error msg) generatingState)) ∧
     (∀ r : VideoResult, r.success = false →
       failedAtGenerating (createVideoResume (Except.ok r) generatingState)) ∧
     ((createVideoResume (Except.ok renderFailed) generatingState).generationData.status = "error" ∧
      (createVideoResume (Except.ok renderFailed) generatingState).generationData.error = some "render failed" ∧
      (createVideoResume (Except.ok renderFailed) generatingState).currentStep = "generating")) :=
  ⟨rfl, stage_failure_keeps_step generatingState rfl⟩

/-! ### C8: network failures get the fixed backend hint -/

/-- C8: any fetch-level network failure (a `TypeError` mentioning fetch,
e.g. connection refused) is replaced by the fixed hint naming the backend;
the hint's text contains "backend"; fed into a stage's failure path it
lands in the workflow state verbatim as the error of an error status; and
every error not matching the network test passes through unchanged, so the
hint stays distinguishable from application-level failures. -/
theorem networkFailure_distinct_hint (e : JsError) (s : WorkflowState)
    (h : isNetworkError e = true) :
    apiRequestCatch e = { name := "Error", message := backendHint } ∧
    strIncludes backendHint "backend" = true ∧
    (urlSubmitResume (Except.error (apiRequestCatch e).message) s).generationData.status = "error" ∧
    (urlSubmitResume (Except.error (apiRequestCatch e).message) s).generationData.error = some backendHint ∧
    (∀ e2 : JsError, isNetworkError e2 = false → apiRequestCatch e2 = e2) := by
  have hc : apiRequestCatch e = { name := "Error", message := backendHint } := by
    simp [apiRequestCatch, h]
  refine ⟨hc, by decide, ?_, ?_, ?_⟩
  · rw [hc]
    rfl
  · rw [hc]
    rfl
  · intro e2 h2
    simp [apiRequestCatch, h2]

/-- A browser connection-refused rejection as `fetch` surfaces it. -/
def connectionRefusedError : JsError :=
  { name := "TypeError", message := "Failed to fetch" }

/-- Witness for C8 at the concrete connection-refused error. -/
theorem networkFailure_distinct_hint_witness :
    isNetworkError connectionRefusedError = true ∧
    (apiRequestCatch connectionRefusedError = { name := "Error", message := backendHint } ∧
     strIncludes backendHint "backend" = true ∧
     (urlSubmitResume (Except.error (apiRequestCatch connectionRefusedError).message)
        initialWorkflowState).generationData.status = "error" ∧
     (urlSubmitResume (Except.error (apiRequestCatch connectionRefusedError).message)
        initialWorkflowState).generationData.error = some backendHint ∧
     (∀ e2 : JsError, isNetworkError e2 = false → apiRequestCatch e2 = e2)) :=
  ⟨by decide,
   networkFailure_distinct_hint connectionRefusedError initialWorkflowState (by decide)⟩

/-! ### C9 and C10: the create-video payload -/

/-- Field lookup in a form payload: the value of the first field with the
given name. -/
def lookupField (payload : List (String × String)) (k : String) :
    Option String :=
  (payload.find? (fun p => p.fst == k)).map Prod.snd

/-- Modelled from the spec: the "stub backend" of the round-trip property
is not part of the sources; following the spec's words it reads each
settings field of the create-video form payload back, decoding the literal
strings "true"/"false" of the three toggles as booleans. -/
def parseCreateVideoSettings (payload : List (String × String)) :
    Option VideoSettingsT :=
  match lookupField payload "aspect_ratio", lookupField payload "template",
      lookupField payload "voice_tone", lookupField payload "enable_karaoke",
      lookupField payload "include_voiceover",
      lookupField payload "include_music",
      lookupField payload "background_music" with
  | some a, some t, some v, some k, some vo, some m, some b =>
    some { aspectRatio := some a, template := some t, voiceTone := some v,
           enableKaraoke := k == "true", includeVoiceover := vo == "true",
           includeMusic := m == "true", backgroundMusic := some b }
  | _, _, _, _, _, _, _ => none

/-- Parsing any create-video payload recovers the serialized field values. -/
theorem parse_createVideoPayload (sid : String) (s : VideoSettingsT) :
    parseCreateVideoSettings (createVideoPayload sid s) =
      some { aspectRatio := some (strOr s.aspectRatio "16:9"),
             template := some (strOr s.template "modern"),
             voiceTone := some (strOr s.voiceTone "professional"),
             enableKaraoke := (if s.enableKaraoke then "true" else "false") == "true",
             includeVoiceover := (if s.includeVoiceover then "true" else "false") == "true",
             includeMusic := (if s.includeMusic then "true" else "false") == "true",
             backgroundMusic := some (strOr s.backgroundMusic "corporate") } :=
  rfl

/-- The boolean-as-string encoding decodes to the encoded boolean. -/
theorem decode_encode_bool (b : Bool) :
    ((if b then "true" else "false") == "true") = b := by
  cases b <;> rfl

/-- The legal enumerated values of the settings form
(`VideoSettings.jsx`): every field is one of its closed choices. -/
def legalSettings (s : VideoSettingsT) : Prop :=
  s.aspectRatio ∈ [some "16:9", some "9:16", some "1:1"] ∧
  s.template ∈ [some "modern", some "classic", some "dynamic", some "minimal"] ∧
  s.voiceTone ∈ [some "professional", some "friendly", some "exciting",
    some "calm", some "authoritative"] ∧
  s.backgroundMusic ∈ [some "corporate", some "energetic", some "relaxed",
    some "modern"]

/-- C9: for every settings object whose seven fields hold legal form
choices, serializing to the create-video payload and parsing back with the
stub backend recovers every chosen value, and the three toggles travel as
the literal strings "true"/"false". -/
theorem createVideo_roundTrip (sid : String) (s : VideoSettingsT)
    (h : legalSettings s) :
    parseCreateVideoSettings (createVideoPayload sid s) = some s ∧
    lookupField (createVideoPayload sid s) "enable_karaoke" =
      some (if s.enableKaraoke then "true" else "false") ∧
    lookupField (createVideoPayload sid s) "include_voiceover" =
      some (if s.includeVoiceover then "true" else "false") ∧
    lookupField (createVideoPayload sid s) "include_music" =
      some (if s.includeMusic then "true" else "false") := by
  obtain ⟨a, t, v, k, vo, m, b⟩ := s
  obtain ⟨ha, ht, hv, hb⟩ := h
  simp only [List.mem_cons, List.not_mem_nil, or_false] at ha ht hv hb
  refine ⟨?_, rfl, rfl, rfl⟩
  rw [parse_createVideoPayload]
  simp only [Option.some.injEq, VideoSettingsT.mk.injEq]
  have ea : some (strOr a "16:9") = a := by
    rcases ha with rfl | rfl | rfl <;> rfl
  have et : some (strOr t "modern") = t := by
    rcases ht with rfl | rfl | rfl | rfl <;> rfl
  have ev : some (strOr v "professional") = v := by
    rcases hv with rfl | rfl | rfl | rfl | rfl <;> rfl
  have eb : some (strOr b "corporate") = b := by
    rcases hb with rfl | rfl | rfl | rfl <;> rfl
  exact ⟨ea, et, ev, decode_encode_bool k, decode_encode_bool vo,
    decode_encode_bool m, eb⟩

/-- A concrete legal settings choice, different from every default. -/
def roundTripSettings : VideoSettingsT :=
  { aspectRatio := some "9:16", template := some "classic",
    voiceTone := some "friendly", enableKaraoke := false,
    includeVoiceover := true, includeMusic := false,
    backgroundMusic := some "energetic" }

/-- Witness for C9 at a concrete legal settings object. -/
theorem createVideo_roundTrip_witness :
    legalSettings roundTripSettings ∧
    (parseCreateVideoSettings (createVideoPayload "abc" roundTripSettings) =
       some roundTripSettings ∧
     lookupField (createVideoPayload "abc" roundTripSettings) "enable_karaoke" =
       some (if roundTripSettings.enableKaraoke then "true" else "false") ∧
     lookupField (createVideoPayload "abc" roundTripSettings) "include_voiceover" =
       some (if roundTripSettings.includeVoiceover then "true" else "false") ∧
     lookupField (createVideoPayload "abc" roundTripSettings) "include_music" =
       some (if roundTripSettings.includeMusic then "true" else "false")) :=
  ⟨by unfold legalSettings; decide,
   createVideo_roundTrip "abc" roundTripSettings (by unfold legalSettings; decide)⟩

/-- A string whose `isEmpty` test is false is not the empty string. -/
theorem ne_empty_of_isEmpty_false (v : String) (h : v.isEmpty = false) :
    v ≠ "" := by
  intro he
  subst he
  exact absurd h (by decide)

/-- The boolean-as-string encoding never yields the empty string. -/
theorem encode_bool_ne_empty (b : Bool) :
    (if b then "true" else "false") ≠ "" := by
  cases b <;> decide

/-- C10: whenever `createVideo` gets past its session guard, the form
payload holds exactly the eight fields in order, every value is a
non-empty string, and each falsy non-boolean settings field was replaced
by its fixed default. -/
theorem createVideo_payload_defaults (sid : Option String)
    (s : VideoSettingsT) (payload : List (String × String))
    (h : createVideoForm sid s = Except.ok payload) :
    payload.map Prod.fst = ["session_id", "aspect_ratio", "template",
      "voice_tone", "enable_karaoke", "include_voiceover",
      "background_music", "include_music"] ∧
    (∀ p ∈ payload, p.snd ≠ "") ∧
    (truthyOptStr s.aspectRatio = false →
      lookupField payload "aspect_ratio" = some "16:9") ∧
    (truthyOptStr s.template = false →
      lookupField payload "template" = some "modern") ∧
    (truthyOptStr s.voiceTone = false →
      lookupField payload "voice_tone" = some "professional") ∧
    (truthyOptStr s.backgroundMusic = false →
      lookupField payload "background_music" = some "corporate") := by
  match sid with
  | none => exact absurd h (by simp [createVideoForm])
  | some v =>
    by_cases hv : v.isEmpty
    · exact absurd h (by simp [createVideoForm, hv])
    · simp only [createVideoForm, hv, Bool.false_eq_true, if_false,
        Except.ok.injEq] at h
      subst h
      refine ⟨rfl, ?_, ?_, ?_, ?_, ?_⟩
      · intro p hp
        simp only [createVideoPayload, List.mem_cons, List.not_mem_nil,
          or_false] at hp
        rcases hp with rfl | rfl | rfl | rfl | rfl | rfl | rfl | rfl
        · exact ne_empty_of_isEmpty_false v (by simpa using hv)
        · exact strOr_ne_empty s.aspectRatio "16:9" (by decide)
        · exact strOr_ne_empty s.template "modern" (by decide)
        · exact strOr_ne_empty s.voiceTone "professional" (by decide)
        · exact encode_bool_ne_empty s.enableKaraoke
        · exact encode_bool_ne_empty s.includeVoiceover
        · exact strOr_ne_empty s.backgroundMusic "corporate" (by decide)
        · exact encode_bool_ne_empty s.includeMusic
      · intro hf
        have hl : lookupField (createVideoPayload v s) "aspect_ratio" =
            some (strOr s.aspectRatio "16:9") := rfl
        rw [hl, strOr_of_falsy s.aspectRatio "16:9" hf]
      · intro hf
        have hl : lookupField (createVideoPayload v s) "template" =
            some (strOr s.template "modern") := rfl
        rw [hl, strOr_of_falsy s.template "modern" hf]
      · intro hf
        have hl : lookupField (createVideoPayload v s) "voice_tone" =
            some (strOr s.voiceTone "professional") := rfl
        rw [hl, strOr_of_falsy s.voiceTone "professional" hf]
      · intro hf
        have hl : lookupField (createVideoPayload v s) "background_music" =
            some (strOr s.backgroundMusic "corporate") := rfl
        rw [hl, strOr_of_falsy s.backgroundMusic "corporate" hf]

/-- A settings object whose non-boolean fields are all falsy: an empty
string and three missing fields. -/
def falsySettings : VideoSettingsT :=
  { aspectRatio := some "", template := none, voiceTone := none,
    enableKaraoke := true, includeVoiceover := false, includeMusic := true,
    backgroundMusic := none }

/-- The payload the defaults produce for `falsySettings`. -/
def falsyPayload : List (String × String) :=
  [("session_id", "abc"), ("aspect_ratio", "16:9"), ("template", "modern"),
   ("voice_tone", "professional"), ("enable_karaoke", "true"),
   ("include_voiceover", "false"), ("background_music", "corporate"),
   ("include_music", "true")]

/-- Witness for C10 at a concrete all-falsy settings object. -/
theorem createVideo_payload_defaults_witness :
    createVideoForm (some "abc") falsySettings = Except.ok falsyPayload ∧
    (falsyPayload.map Prod.fst = ["session_id", "aspect_ratio", "template",
       "voice_tone", "enable_karaoke", "include_voiceover",
       "background_music", "include_music"] ∧
     (∀ p ∈ falsyPayload, p.snd ≠ "") ∧
     (truthyOptStr falsySettings.aspectRatio = false →
       lookupField falsyPayload "aspect_ratio" = some "16:9") ∧
     (truthyOptStr falsySettings.template = false →
       lookupField falsyPayload "template" = some "modern") ∧
     (truthyOptStr falsySettings.voiceTone = false →
       lookupField falsyPayload "voice_tone" = some "professional") ∧
     (truthyOptStr falsySettings.backgroundMusic = false →
       lookupField falsyPayload "background_music" = some "corporate")) :=
  ⟨rfl, createVideo_payload_defaults (some "abc") falsySettings falsyPayload rfl⟩

/-! ### C4: the progress sequence of a successful run -/

/-- C4: along any run in which every backend call resolves successfully,
the sequence of progress values assigned by the state machine is exactly
10, 25, 35, 50, 60, 100 in that order (the deferred advance to the
settings step assigns none), the trace is non-decreasing, and no event
other than reset ever moves a non-zero progress back to 0. -/
theorem progress_sequence (u : String) (r1 : ScrapeResult)
    (c : VideoSettingsT) (r2 : ScriptResult) (r3 : VideoResult)
    (h1 : r1.success = true) (h2 : truthyOptStr r1.session_id = true)
    (h3 : r2.success = true) (h4 : r3.success = true) :
    changesOnly initialWorkflowState.generationData.progress
      (progressTrace initialWorkflowState (successfulRunEvents u r1 c r2 r3)) =
      [10, 25, 35, 50, 60, 100] ∧
    List.Chain' (· ≤ ·)
      (progressTrace initialWorkflowState (successfulRunEvents u r1 c r2 r3)) ∧
    (∀ (e : Event) (s : WorkflowState),
      (step e s).generationData.progress = 0 →
      s.generationData.progress ≠ 0 → e = Event.reset) := by
  have htrace : progressTrace initialWorkflowState
      (successfulRunEvents u r1 c r2 r3) = [10, 25, 25, 35, 50, 60, 100] := by
    simp [successfulRunEvents, progressTrace, step, urlSubmitStart,
      urlSubmitResume, advanceToSettings, settingsConfirmStart,
      settingsConfirmResume, createVideoStart, createVideoResume,
      h1, h2, h3, h4]
  refine ⟨by rw [htrace]; decide, by rw [htrace]; simp [List.chain'_cons], ?_⟩
  intro e s h0 hne
  cases e with
  | urlSubmit u0 =>
    exact absurd h0 (by simp [step, urlSubmitStart])
  | scrapeResponse r =>
    cases r with
    | error msg => exact absurd h0 hne
    | ok result =>
      by_cases hc : (result.success && truthyOptStr result.session_id) = true
      · simp [step, urlSubmitResume, hc] at h0
      · simp only [step, urlSubmitResume, hc, Bool.false_eq_true,
          if_false] at h0
        exact absurd h0 hne
  | settingsAdvance => exact absurd h0 hne
  | settingsConfirm c0 =>
    by_cases hc : truthyOptStr s.generationData.sessionId = true
    · simp [step, settingsConfirmStart, hc] at h0
    · have hc' : truthyOptStr s.generationData.sessionId = false := by
        simpa using hc
      simp only [step, settingsConfirmStart, hc', Bool.not_false,
        if_true] at h0
      exact absurd h0 hne
  | scriptResponse r =>
    cases r with
    | error msg => exact absurd h0 hne
    | ok result =>
      by_cases hc : result.success = true
      · simp [step, settingsConfirmResume, hc] at h0
      · simp only [step, settingsConfirmResume, hc, Bool.false_eq_true,
          if_false] at h0
        exact absurd h0 hne
  | videoPhaseStart c0 =>
    exact absurd h0 (by simp [step, createVideoStart])
  | videoResponse r =>
    cases r with
    | error msg => exact absurd h0 hne
    | ok result =>
      by_cases hc : result.success = true
      · simp [step, createVideoResume, hc] at h0
      · simp only [step, createVideoResume, hc, Bool.false_eq_true,
          if_false] at h0
        exact absurd h0 hne
  | reset => rfl
  | download =>
    by_cases hc : truthyOptStr s.generationData.sessionId = true
    · simp only [step, handleDownload, hc, Bool.not_true,
        Bool.false_eq_true, if_false] at h0
      exact absurd h0 hne
    · have hc' : truthyOptStr s.generationData.sessionId = false := by
        simpa using hc
      simp only [step, handleDownload, hc', Bool.not_false, if_true] at h0
      exact absurd h0 hne

/-- A fully successful scrape body. -/
def okScrape : ScrapeResult :=
  { success := true, session_id := some "abc", sessionId := some "abc",
    product_data := some "Widget", error := none }

/-- A fully successful script body. -/
def okScript : ScriptResult :=
  { success := true, ad_script := some "script", error := none }

/-- A fully successful video body. -/
def okVideo : VideoResult :=
  { success := true, video_path := some "out.mp4", error := none }

/-- Witness for C4 along a concrete successful run. -/
theorem progress_sequence_witness :
    okScrape.success = true ∧ truthyOptStr okScrape.session_id = true ∧
    okScript.success = true ∧ okVideo.success = true ∧
    (changesOnly initialWorkflowState.generationData.progress
       (progressTrace initialWorkflowState
         (successfulRunEvents "https://example.com/item/123" okScrape
           initialSettings okScript okVideo)) = [10, 25, 35, 50, 60, 100] ∧
     List.Chain' (· ≤ ·)
       (progressTrace initialWorkflowState
         (successfulRunEvents "https://example.com/item/123" okScrape
           initialSettings okScript okVideo)) ∧
     (∀ (e : Event) (s : WorkflowState),
       (step e s).generationData.progress = 0 →
       s.generationData.progress ≠ 0 → e = Event.reset)) :=
  ⟨rfl, rfl, rfl, rfl,
   progress_sequence "https://example.com/item/123" okScrape initialSettings
     okScript okVideo rfl rfl rfl rfl⟩
